import Mathlib

/-!
Verification of the lead-scoring and categorization engine of the
Telegram BD CRM repository.

The scoring function `_calculate_lead_score` lives in `core/data_manager.py`
and is quoted verbatim in two documentation files of the repository
(SYSTEM_STATUS.md lines 453-458 and README_CRM_FEATURES.md lines 154-160):

    def _calculate_lead_score(self, message_count, avg_sentiment,
                              positive_messages, negative_messages):
        message_score = min(message_count / 100, 0.4)
        sentiment_score = max(0, avg_sentiment) * 0.3
        engagement_score = (positive_messages / total_messages) * 0.3
        return min(message_score + sentiment_score + engagement_score, 1.0)

Python ints are modelled as ℤ and Python floats as ℚ (all constants in the
source are decimal literals that ℚ represents exactly; no claim here depends
on binary floating-point rounding).
-/

/-- ContactAggregate of the data model: one record per distinct conversation
partner, carrying the per-contact counters the scoring engine consumes. -/
structure ContactAggregate where
  identifier : String
  message_count : ℤ
  positive_message_count : ℤ
  negative_message_count : ℤ
  average_sentiment : ℚ

/-- LeadScore of the data model: the derived score plus category label. -/
structure LeadScore where
  score : ℚ
  category : String

/-- The `message_score` line of `_calculate_lead_score` as quoted in
SYSTEM_STATUS.md and README_CRM_FEATURES.md: `min(message_count / 100, 0.4)`.
Note the source caps the raw `message_count / 100` at 0.4; it does not
multiply `min(message_count / 100, 1.0)` by 0.4. -/
def message_score (message_count : ℤ) : ℚ :=
  min ((message_count : ℚ) / 100) 0.4

/-- The `sentiment_score` line of `_calculate_lead_score`:
`max(0, avg_sentiment) * 0.3`. -/
def sentiment_score (avg_sentiment : ℚ) : ℚ :=
  (max 0 avg_sentiment) * 0.3

/-- The `engagement_score` line of `_calculate_lead_score`:
`(positive_messages / total_messages) * 0.3`. The quoted snippet leaves
`total_messages` undefined and elides its computation; Modelled from the
spec for that elided part: `total_messages = positive_messages +
negative_messages`, and the term is 0 when that denominator is 0
(spec §4.1 item 3). -/
def engagement_score (positive_messages negative_messages : ℤ) : ℚ :=
  if positive_messages + negative_messages = 0 then 0
  else ((positive_messages : ℚ) / (((positive_messages + negative_messages) : ℤ) : ℚ)) * 0.3

/-- The body of `_calculate_lead_score` from `core/data_manager.py` as quoted
in SYSTEM_STATUS.md lines 453-458 and README_CRM_FEATURES.md lines 154-160:
the sum of the three term definitions above, capped above at 1.0. There is no
lower clamp in the source. -/
def _calculate_lead_score (message_count : ℤ) (avg_sentiment : ℚ)
    (positive_messages negative_messages : ℤ) : ℚ :=
  min (message_score message_count + sentiment_score avg_sentiment +
       engagement_score positive_messages negative_messages) 1.0

/-- Modelled from the spec: `_categorize_contact` of `core/data_manager.py`
is not present in the sources (README_CRM_FEATURES.md lines 136-141 lists
only its threshold rules, and lines 166-170 a customization stub). The
priority-ordered rules follow the spec table (§4), first match wins; the
Positive Contact sentiment cutoff is left as a parameter because the spec
leaves it an open configurable positive threshold (§9). -/
def _categorize_contact (positiveThreshold : ℚ) (message_count : ℤ)
    (avg_sentiment : ℚ) : String :=
  if 50 < message_count ∧ 0 < avg_sentiment then "High-Value Lead"
  else if 20 < message_count ∧ 0 < avg_sentiment then "Active Contact"
  else if 10 < message_count then "Regular Contact"
  else if positiveThreshold < avg_sentiment then "Positive Contact"
  else "Contact"

/-- `compute_score` of the spec (§4.1): maps a ContactAggregate to a
LeadScore by running the source scoring function and categorizer on the
aggregate fields. -/
def compute_score (positiveThreshold : ℚ) (a : ContactAggregate) : LeadScore :=
  { score := _calculate_lead_score a.message_count a.average_sentiment
      a.positive_message_count a.negative_message_count
    category := _categorize_contact positiveThreshold a.message_count
      a.average_sentiment }

/-- The follow-up recommendation table from the source documentation
(src/unnamed/part_000 lines 642-647), a static lookup keyed by the lead-value
label used there:
High Priority - Schedule high-priority meeting;
Medium Priority - Send detailed proposal;
High-Value Lead - Follow up with case study;
General - Send general check-in message. -/
def followupRecommendation (label : String) : Option String :=
  if label = "High Priority" then some ("Schedule high-priority meeting")
  else if label = "Medium Priority" then some ("Send detailed proposal")
  else if label = "High-Value Lead" then some ("Follow up with case study")
  else if label = "General" then some ("Send general check-in message")
  else none

/-- The hot-leads filter of `BDAnalyticsAgent.process_query`
(src/unnamed/part_005 lines 164-168): selects contacts whose stored
`lead_score` is at least 70 (`lead_score__gte: 70`). -/
def hotLeadsFilter (lead_score : ℚ) : Bool :=
  70 ≤ lead_score

/-- The scoring formula as the spec's §4.1 words it, for comparison with the
source function: sub-scores `min(message_count/100, 1.0)`,
`max(0, average_sentiment)` and the positive ratio, combined as
`clamp(0.4*engagement + 0.3*sentiment + 0.3*ratioTerm, 0.0, 1.0)`. -/
def spec_compute_score_value (message_count : ℤ) (avg_sentiment : ℚ)
    (positive_messages negative_messages : ℤ) : ℚ :=
  let engagement := min ((message_count : ℚ) / 100) 1.0
  let sentiment := max 0 avg_sentiment
  let ratioTerm : ℚ :=
    if positive_messages + negative_messages = 0 then 0
    else (positive_messages : ℚ) / (((positive_messages + negative_messages) : ℤ) : ℚ)
  max 0 (min (0.4 * engagement + 0.3 * sentiment + 0.3 * ratioTerm) 1.0)

/-- Rank of a category in the BD priority tiers, lowest to highest:
Contact, Positive Contact, Regular Contact, Active Contact, High-Value Lead. -/
def categoryRank (category : String) : ℕ :=
  if category = "High-Value Lead" then 4
  else if category = "Active Contact" then 3
  else if category = "Regular Contact" then 2
  else if category = "Positive Contact" then 1
  else 0

/-- The engagement term of the source saturates: once `40 ≤ message_count`,
`min(message_count / 100, 0.4)` equals 0.4. -/
lemma message_score_sat (mc : ℤ) (h : 40 ≤ mc) : message_score mc = 0.4 := by
  unfold message_score
  have h1 : (0.4 : ℚ) ≤ (mc : ℚ) / 100 := by
    rw [le_div_iff₀ (by norm_num : (0 : ℚ) < 100)]
    have : (40 : ℚ) ≤ (mc : ℚ) := by exact_mod_cast h
    linarith
  exact min_eq_right h1

/-- The message term is non-negative on non-negative counts. -/
lemma message_score_nonneg (mc : ℤ) (h : 0 ≤ mc) : 0 ≤ message_score mc := by
  unfold message_score
  refine le_min (div_nonneg ?_ (by norm_num)) (by norm_num)
  exact_mod_cast h

/-- The sentiment term is non-negative for every sentiment value. -/
lemma sentiment_score_nonneg (avg : ℚ) : 0 ≤ sentiment_score avg := by
  unfold sentiment_score
  exact mul_nonneg (le_max_left 0 avg) (by norm_num)

/-- The ratio term is non-negative on non-negative counts. -/
lemma engagement_score_nonneg (p n : ℤ) (hp : 0 ≤ p) (hn : 0 ≤ n) :
    0 ≤ engagement_score p n := by
  unfold engagement_score
  split
  · exact le_refl 0
  · refine mul_nonneg (div_nonneg ?_ ?_) (by norm_num)
    · exact_mod_cast hp
    · exact_mod_cast add_nonneg hp hn

/-- The source score never exceeds 1 (the final `min(..., 1.0)`). -/
lemma lead_score_le_one (mc : ℤ) (avg : ℚ) (p n : ℤ) :
    _calculate_lead_score mc avg p n ≤ 1 := by
  unfold _calculate_lead_score
  exact le_trans (min_le_right _ _) (by norm_num)

/-- C1 (amended): in the source, the engagement term of the score is
`min(message_count / 100, 0.4)` — the 0.4 weight acts as a cap on the raw
`message_count / 100`, not as a multiplier of `min(message_count / 100, 1.0)`
— so the term saturates at exactly 0.4 for every `message_count ≥ 40`, and in
particular for every `message_count ≥ 100`; past saturation the whole score no
longer depends on the message count. -/
theorem C1_engagement_term_saturation (mc : ℤ) (hmc : 40 ≤ mc)
    (avg : ℚ) (p n : ℤ) :
    message_score mc = 0.4 ∧
    _calculate_lead_score mc avg p n = _calculate_lead_score 100 avg p n := by
  have h1 := message_score_sat mc hmc
  have h2 := message_score_sat 100 (by norm_num)
  refine ⟨h1, ?_⟩
  unfold _calculate_lead_score
  rw [h1, h2]

/-- C1 witness: the saturation theorem applied at message_count = 60. -/
theorem C1_engagement_term_saturation_witness :
    message_score 60 = 0.4 ∧
    _calculate_lead_score 60 0.5 3 1 = _calculate_lead_score 100 0.5 3 1 :=
  C1_engagement_term_saturation 60 (by norm_num) 0.5 3 1

/-- C1 counterexample: at message_count = 60 (all other inputs zero) the
source score is 0.4, but the claimed engagement contribution
`0.4 * min(message_count / 100, 1.0)` is 0.24, so the claim's formula does not
match the code. -/
theorem C1_counterexample :
    _calculate_lead_score 60 0 0 0 = 0.4 ∧
    (0.4 : ℚ) ≠ 0.4 * min ((60 : ℚ) / 100) 1.0 := by
  constructor
  · norm_num [_calculate_lead_score, message_score, sentiment_score,
      engagement_score, min_def, max_def]
  · norm_num [min_def]

/-- C2 (amended): the source reproduces the first worked scenario —
`message_count=60, positive=40, negative=5, average_sentiment=0.6` gives score
127/150 ≈ 0.8467 and category High-Value Lead — but on the second scenario
`message_count=25, positive=10, negative=10, average_sentiment=0.1` it returns
0.43 (message term min(0.25, 0.4) = 0.25, not 0.4 * 0.25 = 0.1), not the
claimed 0.28; the category there is Active Contact as claimed. Both categories
hold for every Positive Contact threshold. -/
theorem C2_worked_scenarios (t : ℚ) :
    _calculate_lead_score 60 0.6 40 5 = 127 / 150 ∧
    (0.8466 : ℚ) < 127 / 150 ∧ (127 : ℚ) / 150 < 0.8468 ∧
    _categorize_contact t 60 0.6 = "High-Value Lead" ∧
    _calculate_lead_score 25 0.1 10 10 = 0.43 ∧
    _categorize_contact t 25 0.1 = "Active Contact" := by
  refine ⟨?_, by norm_num, by norm_num, ?_, ?_, ?_⟩
  · norm_num [_calculate_lead_score, message_score, sentiment_score,
      engagement_score, min_def, max_def]
  · norm_num [_categorize_contact]
  · norm_num [_calculate_lead_score, message_score, sentiment_score,
      engagement_score, min_def, max_def]
  · norm_num [_categorize_contact]

/-- C2 counterexample: on the second worked scenario the source returns 0.43,
not the claimed 0.28. -/
theorem C2_counterexample :
    _calculate_lead_score 25 0.1 10 10 = 0.43 ∧ (0.43 : ℚ) ≠ 0.28 := by
  constructor
  · norm_num [_calculate_lead_score, message_score, sentiment_score,
      engagement_score, min_def, max_def]
  · norm_num

/-- C3: the scoring function is total (it is a Lean function, defined on all
inputs); when `positive + negative = 0` the ratio term is 0 rather than a
division-by-zero failure; and the all-zero aggregate scores 0.0 with category
Contact, for every positive value of the Positive Contact threshold. -/
theorem C3_total_zero_denominator (t : ℚ) (ht : 0 < t) (p n : ℤ)
    (hpn : p + n = 0) :
    engagement_score p n = 0 ∧
    _calculate_lead_score 0 0 0 0 = 0 ∧
    _categorize_contact t 0 0 = "Contact" := by
  refine ⟨?_, ?_, ?_⟩
  · unfold engagement_score
    rw [if_pos hpn]
  · norm_num [_calculate_lead_score, message_score, sentiment_score,
      engagement_score, min_def, max_def]
  · have hneg : ¬ (t < 0) := not_lt.mpr (le_of_lt ht)
    simp [_categorize_contact, hneg]

/-- C3 witness: the totality theorem applied at threshold 0.5 and the
zero-count aggregate. -/
theorem C3_total_zero_denominator_witness :
    engagement_score 0 0 = 0 ∧
    _calculate_lead_score 0 0 0 0 = 0 ∧
    _categorize_contact 0.5 0 0 = "Contact" :=
  C3_total_zero_denominator 0.5 (by norm_num) 0 0 (by norm_num)

/-- C4 (amended): the source clamps only above — the score is
`min(message_score + sentiment_score + engagement_score, 1.0)`, with no lower
clamp — and for every aggregate with non-negative counts each addend is
non-negative, so the returned score lies within [0, 1]. -/
theorem C4_upper_clamp_bounds (t : ℚ) (a : ContactAggregate)
    (hmc : 0 ≤ a.message_count) (hp : 0 ≤ a.positive_message_count)
    (hn : 0 ≤ a.negative_message_count) :
    (compute_score t a).score =
      min (message_score a.message_count + sentiment_score a.average_sentiment +
        engagement_score a.positive_message_count a.negative_message_count) 1.0 ∧
    0 ≤ (compute_score t a).score ∧ (compute_score t a).score ≤ 1 := by
  have h1 := message_score_nonneg a.message_count hmc
  have h2 := sentiment_score_nonneg a.average_sentiment
  have h3 := engagement_score_nonneg a.positive_message_count
    a.negative_message_count hp hn
  refine ⟨rfl, ?_, ?_⟩
  · show (0 : ℚ) ≤ min (message_score a.message_count +
      sentiment_score a.average_sentiment +
      engagement_score a.positive_message_count a.negative_message_count) 1.0
    exact le_min (by linarith) (by norm_num)
  · exact lead_score_le_one a.message_count a.average_sentiment
      a.positive_message_count a.negative_message_count

/-- C4 witness: the bounds theorem applied to a concrete aggregate. -/
theorem C4_upper_clamp_bounds_witness :
    (compute_score 0.5 ⟨"c1", 60, 40, 5, 0.6⟩).score =
      min (message_score 60 + sentiment_score 0.6 + engagement_score 40 5) 1.0 ∧
    0 ≤ (compute_score 0.5 ⟨"c1", 60, 40, 5, 0.6⟩).score ∧
    (compute_score 0.5 ⟨"c1", 60, 40, 5, 0.6⟩).score ≤ 1 :=
  C4_upper_clamp_bounds 0.5 ⟨"c1", 60, 40, 5, 0.6⟩ (by norm_num) (by norm_num)
    (by norm_num)

/-- C4 counterexample: at message_count = 60 (all else zero) the source score
is 0.4 while the spec's formula
`clamp(0.4*min(mc/100, 1.0) + 0.3*sentiment + 0.3*ratioTerm, 0.0, 1.0)`
gives 0.24, so the claimed equality with the clamp formula fails. -/
theorem C4_counterexample :
    _calculate_lead_score 60 0 0 0 ≠ spec_compute_score_value 60 0 0 0 := by
  norm_num [_calculate_lead_score, message_score, sentiment_score,
    engagement_score, spec_compute_score_value, min_def, max_def]

/-- C5: categorization is priority-ordered, first match wins — every contact
with more than 50 messages and positive average sentiment is assigned
High-Value Lead and never any lower tier, for every Positive Contact
threshold and however high the sentiment is. -/
theorem C5_high_value_first_match (t : ℚ) (mc : ℤ) (avg : ℚ)
    (h1 : 50 < mc) (h2 : 0 < avg) :
    _categorize_contact t mc avg = "High-Value Lead" ∧
    _categorize_contact t mc avg ≠ "Active Contact" ∧
    _categorize_contact t mc avg ≠ "Regular Contact" ∧
    _categorize_contact t mc avg ≠ "Positive Contact" := by
  have h : _categorize_contact t mc avg = "High-Value Lead" := by
    unfold _categorize_contact
    rw [if_pos ⟨h1, h2⟩]
  refine ⟨h, ?_, ?_, ?_⟩ <;> rw [h] <;> decide

/-- C5 witness: the first-match theorem applied at message_count 60 and
average sentiment 0.95. -/
theorem C5_high_value_first_match_witness :
    _categorize_contact 0.5 60 0.95 = "High-Value Lead" ∧
    _categorize_contact 0.5 60 0.95 ≠ "Active Contact" ∧
    _categorize_contact 0.5 60 0.95 ≠ "Regular Contact" ∧
    _categorize_contact 0.5 60 0.95 ≠ "Positive Contact" :=
  C5_high_value_first_match 0.5 60 0.95 (by norm_num) (by norm_num)

/-- C6: with average sentiment fixed at any positive value, the category tier
is monotone non-decreasing in message_count, and the thresholds land on
Regular Contact at 20, Active Contact at 50, High-Value Lead at 51, with the
tier at 10 messages at most Positive Contact — so increasing the count across
10 → 20 → 50 → 51 only moves the category forward, never backward. -/
theorem C6_category_monotone (t avg : ℚ) (havg : 0 < avg) (mc1 mc2 : ℤ)
    (hle : mc1 ≤ mc2) :
    categoryRank (_categorize_contact t mc1 avg) ≤
      categoryRank (_categorize_contact t mc2 avg) ∧
    _categorize_contact t 20 avg = "Regular Contact" ∧
    _categorize_contact t 50 avg = "Active Contact" ∧
    _categorize_contact t 51 avg = "High-Value Lead" ∧
    categoryRank (_categorize_contact t 10 avg) ≤ 1 := by
  have hsimp : ∀ mc : ℤ, _categorize_contact t mc avg =
      (if 50 < mc then "High-Value Lead"
       else if 20 < mc then "Active Contact"
       else if 10 < mc then "Regular Contact"
       else if t < avg then "Positive Contact"
       else "Contact") := by
    intro mc
    unfold _categorize_contact
    simp [havg]
  refine ⟨?_, ?_, ?_, ?_, ?_⟩
  · rw [hsimp mc1, hsimp mc2]
    split_ifs <;> first | decide | (exfalso; omega)
  · rw [hsimp 20]
    norm_num
  · rw [hsimp 50]
    norm_num
  · rw [hsimp 51]
    norm_num
  · rw [hsimp 10]
    split_ifs <;> first | decide | (exfalso; omega)

/-- C6 witness: the monotonicity theorem applied at threshold 0.5, sentiment
0.3 and counts 15 ≤ 30. -/
theorem C6_category_monotone_witness :
    categoryRank (_categorize_contact 0.5 15 0.3) ≤
      categoryRank (_categorize_contact 0.5 30 0.3) :=
  (C6_category_monotone 0.5 0.3 (by norm_num) 15 30 (by norm_num)).1

/-- C7 (amended): the follow-up recommendation is a static lookup into the
fixed four-action vocabulary, but it is keyed by the lead-value labels of the
source documentation — High Priority maps to scheduling the high-priority
meeting, Medium Priority to the detailed proposal, High-Value Lead to the
case-study follow-up, and General to the general check-in — and every action
the lookup can emit belongs to the four-action vocabulary. -/
theorem C7_recommendation_lookup :
    followupRecommendation ("High Priority") =
      some ("Schedule high-priority meeting") ∧
    followupRecommendation ("Medium Priority") =
      some ("Send detailed proposal") ∧
    followupRecommendation ("High-Value Lead") =
      some ("Follow up with case study") ∧
    followupRecommendation ("General") =
      some ("Send general check-in message") ∧
    ∀ label action, followupRecommendation label = some action →
      (action = "Schedule high-priority meeting" ∨
       action = "Send detailed proposal" ∨
       action = "Follow up with case study" ∨
       action = "Send general check-in message") := by
  refine ⟨by decide, by decide, by decide, by decide, ?_⟩
  intro label action h
  unfold followupRecommendation at h
  split_ifs at h
  all_goals first
    | exact Option.noConfusion h
    | (rw [Option.some.injEq] at h; subst h; decide)

/-- C7 witness: the lookup theorem applied at the General label. -/
theorem C7_recommendation_lookup_witness :
    ("Send general check-in message" = "Schedule high-priority meeting" ∨
     "Send general check-in message" = "Send detailed proposal" ∨
     "Send general check-in message" = "Follow up with case study" ∨
     "Send general check-in message" = "Send general check-in message") :=
  C7_recommendation_lookup.2.2.2.2 ("General")
    ("Send general check-in message") (by decide)

/-- C7 counterexample: the source table maps the High-Value Lead label to the
case-study follow-up, not to scheduling a high-priority meeting as claimed. -/
theorem C7_counterexample :
    followupRecommendation ("High-Value Lead") =
      some ("Follow up with case study") ∧
    followupRecommendation ("High-Value Lead") ≠
      some ("Schedule high-priority meeting") := by
  constructor <;> decide

/-- C8: for every aggregate with non-positive average sentiment the
sentiment term `max(0, avg_sentiment) * 0.3` is exactly 0, so such a contact
scores exactly like a neutral contact with sentiment 0 — negative sentiment
is neither rewarded nor penalized. -/
theorem C8_nonpositive_sentiment (mc p n : ℤ) (avg : ℚ) (h : avg ≤ 0) :
    sentiment_score avg = 0 ∧
    _calculate_lead_score mc avg p n = _calculate_lead_score mc 0 p n := by
  have hs : sentiment_score avg = 0 := by
    unfold sentiment_score
    rw [max_eq_left h, zero_mul]
  refine ⟨hs, ?_⟩
  unfold _calculate_lead_score
  rw [hs]
  norm_num [sentiment_score]

/-- C8 witness: the theorem applied at sentiment -0.5. -/
theorem C8_nonpositive_sentiment_witness :
    sentiment_score (-0.5) = 0 ∧
    _calculate_lead_score 5 (-0.5) 2 1 = _calculate_lead_score 5 0 2 1 :=
  C8_nonpositive_sentiment 5 2 1 (-0.5) (by norm_num)

/-- C9: every value the source scoring function returns is at most 1 (its
final `min(..., 1.0)`), while the hot-leads filter of
`BDAnalyticsAgent.process_query` selects scores of at least 70 — so the
filter never matches a score produced by `_calculate_lead_score`: the two
components assume incompatible scales (0-1 versus 0-100). -/
theorem C9_hot_leads_never_match (mc : ℤ) (avg : ℚ) (p n : ℤ) :
    _calculate_lead_score mc avg p n ≤ 1 ∧
    hotLeadsFilter (_calculate_lead_score mc avg p n) = false := by
  have h := lead_score_le_one mc avg p n
  refine ⟨h, ?_⟩
  unfold hotLeadsFilter
  simp only [decide_eq_false_iff_not]
  intro hc
  linarith

/-- C10: with non-negative counts, at least one classified message, and any
average sentiment, every addend of the score is non-negative, so the returned
score is at least 0 even though the source applies no lower clamp. -/
theorem C10_score_nonneg (mc : ℤ) (avg : ℚ) (p n : ℤ)
    (hmc : 0 ≤ mc) (hp : 0 ≤ p) (hn : 0 ≤ n) (hpn : 0 < p + n) :
    0 ≤ _calculate_lead_score mc avg p n := by
  have h1 := message_score_nonneg mc hmc
  have h2 := sentiment_score_nonneg avg
  have h3 := engagement_score_nonneg p n hp hn
  unfold _calculate_lead_score
  exact le_min (by linarith) (by norm_num)

/-- C10 witness: the lower-bound theorem applied at a concrete input with one
positive and one negative classified message. -/
theorem C10_score_nonneg_witness :
    0 ≤ _calculate_lead_score 7 (-0.2) 1 1 :=
  C10_score_nonneg 7 (-0.2) 1 1 (by norm_num) (by norm_num) (by norm_num)
    (by norm_num)
